import Mathlib

/-!
Verification development for a retrieval-augmented real-estate chatbot
(source: app.py). The control flow of the pipeline is embedded shallowly:
each external service call (language model, embedding service, vector
store) is modelled as a field of an environment record describing the
outcome of that call, and the pure control flow around the calls is
translated from the source. External-library algorithms whose code is not
in the repository (text splitter, similarity search) are modelled from
the specification text, as marked on their definitions.
-/

namespace PropertyPal

/-! Chunker. Configuration from app.py:
RecursiveCharacterTextSplitter(chunk_size=1000, chunk_overlap=100). -/

/-- Maximum chunk length, from chunk_size=1000 in app.py. -/
def chunk_size : Nat := 1000

/-- Chunk overlap, from chunk_overlap=100 in app.py. -/
def chunk_overlap : Nat := 100

/-- Forward stride of the greedy splitter: maximum length minus overlap. -/
def stride : Nat := chunk_size - chunk_overlap

/-- Modelled from the spec: the splitting algorithm itself lives in the
external langchain library (only its configuration is in app.py); the spec
describes the Chunker as a greedy forward split, taking up to chunk_size
characters and then sliding forward by stride = chunk_size - chunk_overlap.
The first argument is recursion fuel, only there to make the recursion
structural; splitGreedy supplies enough fuel, and splitAux_fuel_irrel shows
the result does not depend on the fuel once it is sufficient. -/
def splitAux : Nat → List Char → List (List Char)
  | 0, s => [s]
  | fuel + 1, s =>
    if s.length ≤ chunk_size then [s]
    else s.take chunk_size :: splitAux fuel (s.drop stride)

/-- Greedy forward split of the text of one Record into chunks. -/
def splitGreedy (s : List Char) : List (List Char) :=
  splitAux s.length s

theorem splitAux_of_le (fuel : Nat) (s : List Char) (h : s.length ≤ chunk_size) :
    splitAux fuel s = [s] := by
  cases fuel with
  | zero => rfl
  | succ n => simp [splitAux, h]

theorem splitAux_fuel_irrel (f₁ : Nat) : ∀ (f₂ : Nat) (s : List Char),
    s.length ≤ f₁ → s.length ≤ f₂ → splitAux f₁ s = splitAux f₂ s := by
  induction f₁ with
  | zero =>
    intro f₂ s h₁ h₂
    have hs : s.length ≤ chunk_size := by simp only [chunk_size]; omega
    rw [splitAux_of_le _ _ hs, splitAux_of_le _ _ hs]
  | succ n ih =>
    intro f₂ s h₁ h₂
    by_cases hs : s.length ≤ chunk_size
    · rw [splitAux_of_le _ _ hs, splitAux_of_le _ _ hs]
    · cases f₂ with
      | zero =>
        exfalso
        simp only [chunk_size] at hs
        omega
      | succ m =>
        simp only [splitAux, if_neg hs]
        congr 1
        apply ih
        · simp only [List.length_drop, stride, chunk_size, chunk_overlap] at *
          omega
        · simp only [List.length_drop, stride, chunk_size, chunk_overlap] at *
          omega

theorem splitAux_length (fuel : Nat) : ∀ s : List Char, s.length ≤ fuel →
    (splitAux fuel s).length =
      if s.length ≤ chunk_size then 1
      else (s.length - chunk_overlap + (stride - 1)) / stride := by
  induction fuel with
  | zero =>
    intro s h
    have hs : s.length ≤ chunk_size := by simp only [chunk_size]; omega
    rw [splitAux_of_le _ _ hs, if_pos hs]
    rfl
  | succ n ih =>
    intro s h
    by_cases hs : s.length ≤ chunk_size
    · rw [splitAux_of_le _ _ hs, if_pos hs]
      rfl
    · rw [if_neg hs]
      simp only [splitAux, if_neg hs, List.length_cons]
      rw [ih (s.drop stride)
        (by simp only [List.length_drop, stride, chunk_size, chunk_overlap] at *; omega)]
      simp only [List.length_drop]
      simp only [chunk_size, chunk_overlap, stride] at hs ⊢
      norm_num at hs ⊢
      split_ifs with h2
      · omega
      · omega

theorem splitAux_chunk_le (fuel : Nat) : ∀ s : List Char, s.length ≤ fuel →
    ∀ c ∈ splitAux fuel s, c.length ≤ chunk_size := by
  induction fuel with
  | zero =>
    intro s h c hc
    have hs : s.length ≤ chunk_size := by simp only [chunk_size]; omega
    rw [splitAux_of_le _ _ hs] at hc
    simp only [List.mem_singleton] at hc
    subst hc
    exact hs
  | succ n ih =>
    intro s h c hc
    by_cases hs : s.length ≤ chunk_size
    · rw [splitAux_of_le _ _ hs] at hc
      simp only [List.mem_singleton] at hc
      subst hc
      exact hs
    · simp only [splitAux, if_neg hs, List.mem_cons] at hc
      rcases hc with rfl | hc
      · simp only [List.length_take]
        exact Nat.min_le_left _ _
      · refine ih (s.drop stride) ?_ c hc
        simp only [List.length_drop, stride, chunk_size, chunk_overlap] at *
        omega

/-- C1: the Chunker (maximum chunk length 1000, overlap 100) performs a
greedy forward split, taking up to the maximum length and then sliding
forward by (maximum length - overlap); for a Record text of length L it
produces exactly the ceiling of (L - overlap) / (maximum - overlap) chunks,
exactly one chunk when L is at most the maximum, and every produced chunk
has length at most the maximum. -/
theorem C1_chunker_greedy_count_bound (s : List Char) :
    splitGreedy s =
      (if s.length ≤ chunk_size then [s]
       else s.take chunk_size :: splitGreedy (s.drop stride))
  ∧ (splitGreedy s).length =
      (if s.length ≤ chunk_size then 1
       else (s.length - chunk_overlap + (stride - 1)) / stride)
  ∧ ∀ c ∈ splitGreedy s, c.length ≤ chunk_size := by
  refine ⟨?_, splitAux_length s.length s le_rfl, splitAux_chunk_le s.length s le_rfl⟩
  by_cases hs : s.length ≤ chunk_size
  · rw [if_pos hs]
    exact splitAux_of_le _ _ hs
  · rw [if_neg hs]
    unfold splitGreedy
    rw [splitAux_fuel_irrel s.length (s.length + 1) s le_rfl (Nat.le_succ _)]
    simp only [splitAux, if_neg hs]
    congr 1
    apply splitAux_fuel_irrel
    · simp only [List.length_drop]
      omega
    · exact le_rfl

/-- Concrete instance of the chunk-length bound from C1. -/
theorem C1_chunker_greedy_count_bound_witness :
    (['a', 'b'] : List Char).length ≤ chunk_size :=
  (C1_chunker_greedy_count_bound ['a', 'b']).2.2 ['a', 'b'] (by decide)

/-! Per-query pipeline: intent classification and response generation,
from classify_query_intent, get_general_response, get_property_response
and get_response in app.py. The outcome of each language-model call is a
field of QueryEnv: Except.ok carries the raw text the service returned,
Except.error carries the description of a raised failure. -/

/-- Executable model of the Python str.strip method: drop whitespace from
both ends of the character list of the string. -/
def pyStrip (s : List Char) : List Char :=
  ((s.dropWhile Char.isWhitespace).reverse.dropWhile Char.isWhitespace).reverse

/-- Executable model of the Python str.upper method on ASCII text. -/
def pyUpper (s : List Char) : List Char :=
  s.map Char.toUpper

/-- The strip-then-upper normalization applied to the classifier output. -/
def strip_upper (s : String) : String :=
  ⟨pyUpper (pyStrip s.data)⟩

/-- The strip applied to a generated response. -/
def strip (s : String) : String :=
  ⟨pyStrip s.data⟩

/-- Outcomes of the external language-model calls made for one query. -/
structure QueryEnv where
  classifyCall : Except String String
  generalCall : Except String String
  chainCall : Except String (String × List String)

/-- From classify_query_intent in app.py: on success the raw model output
is stripped and upper-cased; on any raised failure the result defaults to
PROPERTY. -/
def classify_query_intent (env : QueryEnv) : String :=
  match env.classifyCall with
  | Except.ok r => strip_upper r
  | Except.error _ => "PROPERTY"

/-- Fixed fallback greeting substituted when the conversational generation
call fails (get_general_response in app.py). -/
def general_fallback : String :=
  "Hello! I\x27m your Real Estate Assistant. How can I help you find the perfect property today?"

/-- From get_general_response in app.py: conversational answer with an
empty supporting-chunk list; on failure the fixed fallback greeting. -/
def get_general_response (env : QueryEnv) : String × List String :=
  match env.generalCall with
  | Except.ok r => (strip r, [])
  | Except.error _ => (general_fallback, [])

/-- Apology produced when the retrieval-augmented chain call fails
(get_property_response in app.py): a fixed prefixed message followed by
the description of the raised failure. -/
def property_error_text (e : String) : String :=
  "I\x27m sorry, I encountered an error while searching for properties: " ++ e

/-- From get_property_response in app.py: on success the chain result text
together with its source documents; on failure the apology text with an
empty supporting-chunk list. -/
def get_property_response (env : QueryEnv) : String × List String :=
  match env.chainCall with
  | Except.ok rd => rd
  | Except.error e => (property_error_text e, [])

/-- From get_response in app.py: route on the classified intent; the exact
token GENERAL selects the conversational variant, anything else selects
the retrieval-augmented variant. -/
def get_response (env : QueryEnv) : String × List String :=
  if classify_query_intent env = "GENERAL" then get_general_response env
  else get_property_response env

/-- The two response paths of get_response. -/
inductive Route where
  | general : Route
  | property : Route
deriving DecidableEq

/-- Which path get_response takes for a given query environment. -/
def route (env : QueryEnv) : Route :=
  if classify_query_intent env = "GENERAL" then Route.general
  else Route.property

theorem classify_of_ok (env : QueryEnv) (r : String)
    (h : env.classifyCall = Except.ok r) :
    classify_query_intent env = strip_upper r := by
  unfold classify_query_intent
  rw [h]

theorem classify_of_error (env : QueryEnv) (e : String)
    (h : env.classifyCall = Except.error e) :
    classify_query_intent env = "PROPERTY" := by
  unfold classify_query_intent
  rw [h]

theorem route_of_general (env : QueryEnv)
    (h : classify_query_intent env = "GENERAL") : route env = Route.general := by
  unfold route
  rw [if_pos h]

theorem route_of_not_general (env : QueryEnv)
    (h : classify_query_intent env ≠ "GENERAL") : route env = Route.property := by
  unfold route
  rw [if_neg h]

theorem get_response_of_general (env : QueryEnv) (h : route env = Route.general) :
    get_response env = get_general_response env := by
  unfold get_response
  by_cases hg : classify_query_intent env = "GENERAL"
  · rw [if_pos hg]
  · rw [route_of_not_general env hg] at h
    exact absurd h (by decide)

theorem get_response_of_property (env : QueryEnv) (h : route env = Route.property) :
    get_response env = get_property_response env := by
  unfold get_response
  by_cases hg : classify_query_intent env = "GENERAL"
  · rw [route_of_general env hg] at h
    exact absurd h (by decide)
  · rw [if_neg hg]

/-- C2: only the exact normalized token GENERAL routes to the
conversational path; any raised classification failure, and any returned
token that after trimming and upper-casing differs from GENERAL, routes
the query to the retrieval-augmented property path. -/
theorem C2_intent_routing (env : QueryEnv) :
    (route env = Route.general ↔
      ∃ r, env.classifyCall = Except.ok r ∧ strip_upper r = "GENERAL")
  ∧ (route env = Route.general → get_response env = get_general_response env)
  ∧ (route env = Route.property → get_response env = get_property_response env) := by
  refine ⟨⟨?_, ?_⟩, ?_, ?_⟩
  · intro h
    cases hc : env.classifyCall with
    | ok r =>
      refine ⟨r, rfl, ?_⟩
      by_contra hg
      have hne : classify_query_intent env ≠ "GENERAL" := by
        rw [classify_of_ok env r hc]
        exact hg
      rw [route_of_not_general env hne] at h
      exact absurd h (by decide)
    | error e =>
      have hne : classify_query_intent env ≠ "GENERAL" := by
        rw [classify_of_error env e hc]
        decide
      rw [route_of_not_general env hne] at h
      exact absurd h (by decide)
  · rintro ⟨r, hr, hg⟩
    refine route_of_general env ?_
    rw [classify_of_ok env r hr]
    exact hg
  · exact get_response_of_general env
  · exact get_response_of_property env

/-- Concrete instance of C2: a classification failure routes to the
property path. -/
theorem C2_intent_routing_witness :
    get_response ⟨Except.error "boom", Except.ok "hi", Except.ok ("x", [])⟩
      = get_property_response ⟨Except.error "boom", Except.ok "hi", Except.ok ("x", [])⟩ :=
  (C2_intent_routing ⟨Except.error "boom", Except.ok "hi", Except.ok ("x", [])⟩).2.2
    (by decide)

/-- Query environment in which the chain call raises a failure described
by the string A. -/
def envChainFailA : QueryEnv :=
  ⟨Except.ok "PROPERTY", Except.ok "hi", Except.error "A"⟩

/-- Query environment in which the chain call raises a failure described
by the string B. -/
def envChainFailB : QueryEnv :=
  ⟨Except.ok "PROPERTY", Except.ok "hi", Except.error "B"⟩

/-- C4 counterexample: the apology substituted by the grounded (PROPERTY)
variant on a generation failure is not a fixed string — two failures with
different descriptions produce two different response texts, because the
code interpolates the error description into the message. -/
theorem C4_counterexample :
    (get_property_response envChainFailA).1 ≠ (get_property_response envChainFailB).1
  ∧ (get_property_response envChainFailA).2 = []
  ∧ (get_property_response envChainFailB).2 = [] := by
  decide

/-- C4 (amended): any failure raised by a generation call is caught and
produces a response turn: the grounded (PROPERTY) variant substitutes an
apology whose text is a fixed prefixed message followed by the failure
description, and the conversational (GENERAL) variant substitutes a fixed
greeting string; each is paired with an empty supporting-chunk list, so
the session continues instead of raising an unhandled fault. -/
theorem C4_generation_failure_recovery (env : QueryEnv) (e e2 : String)
    (h1 : env.chainCall = Except.error e)
    (h2 : env.generalCall = Except.error e2) :
    get_property_response env = (property_error_text e, [])
  ∧ get_general_response env = (general_fallback, []) := by
  constructor
  · unfold get_property_response
    rw [h1]
  · unfold get_general_response
    rw [h2]

/-- Concrete instance of the amended C4. -/
theorem C4_generation_failure_recovery_witness :
    get_property_response ⟨Except.ok "x", Except.error "g", Except.error "p"⟩
      = (property_error_text "p", [])
  ∧ get_general_response ⟨Except.ok "x", Except.error "g", Except.error "p"⟩
      = (general_fallback, []) :=
  C4_generation_failure_recovery
    ⟨Except.ok "x", Except.error "g", Except.error "p"⟩ "p" "g" rfl rfl

/-- C8: each query on an initialized session yields exactly one
(response text, supporting-chunk list) pair from exactly one classified
intent; on the GENERAL path the supporting-chunk list is empty, and on the
PROPERTY path a successful chain call yields exactly its source documents
as the supporting-chunk list. -/
theorem C8_single_response_pair (env : QueryEnv) :
    (∃! p : String × List String, get_response env = p)
  ∧ (∃! i : String, classify_query_intent env = i)
  ∧ (route env = Route.general → (get_response env).2 = [])
  ∧ (∀ res docs, route env = Route.property →
      env.chainCall = Except.ok (res, docs) → (get_response env).2 = docs) := by
  refine ⟨⟨get_response env, rfl, fun p hp => hp.symm⟩,
    ⟨classify_query_intent env, rfl, fun i hi => hi.symm⟩, ?_, ?_⟩
  · intro h
    rw [get_response_of_general env h]
    unfold get_general_response
    cases hg : env.generalCall <;> rfl
  · intro res docs h hok
    rw [get_response_of_property env h]
    unfold get_property_response
    rw [hok]

/-- Concrete instance of C8: a successful PROPERTY turn returns the chain
source documents as the supporting-chunk list. -/
theorem C8_single_response_pair_witness :
    (get_response ⟨Except.ok "PROPERTY", Except.ok "hi", Except.ok ("ans", ["d1", "d2"])⟩).2
      = ["d1", "d2"] :=
  (C8_single_response_pair
      ⟨Except.ok "PROPERTY", Except.ok "hi", Except.ok ("ans", ["d1", "d2"])⟩).2.2.2
    "ans" ["d1", "d2"] (by decide) rfl

/-! Retriever. app.py configures as_retriever with search_type
similarity and search_kwargs k = 5; the similarity search itself lives in
the external vector store. -/

/-- Retrieval width k = 5, from search_kwargs in app.py. -/
def retrievalK : Nat := 5

/-- Descending-similarity order on indexed chunks: a comes before b when
the similarity of a to the query embedding is at least that of b. -/
def simDesc {α : Type} (sim : α → Int) : α → α → Prop :=
  fun a b => sim b ≤ sim a

instance {α : Type} (sim : α → Int) : DecidableRel (simDesc sim) :=
  fun a b => Int.decLe (sim b) (sim a)

instance {α : Type} (sim : α → Int) : IsTotal α (simDesc sim) :=
  ⟨fun a b => le_total (sim b) (sim a)⟩

instance {α : Type} (sim : α → Int) : IsTrans α (simDesc sim) :=
  ⟨fun _ _ _ h1 h2 => le_trans h2 h1⟩

/-- Modelled from the spec: the similarity search of the external vector
store, behind the retriever handle. sim gives the similarity of each
indexed chunk to the query embedding; the Retriever returns the
retrievalK most similar chunks, most similar first, with no minimum
similarity threshold. -/
def similarity_search {α : Type} (sim : α → Int) (index : List α) : List α :=
  (List.insertionSort (simDesc sim) index).take retrievalK

/-- C7: for every query the Retriever returns at most k = 5 chunks,
ranked by descending similarity to the query embedding; when the index
holds fewer than 5 chunks it returns all of them (as a permutation of the
index), and no minimum-similarity threshold is applied: the number of
results is min k (index size) whatever the similarity values are. -/
theorem C7_retriever_top5 {α : Type} (sim : α → Int) (index : List α) :
    (similarity_search sim index).length = min retrievalK index.length
  ∧ List.Sorted (simDesc sim) (similarity_search sim index)
  ∧ (index.length < retrievalK →
      List.Perm (similarity_search sim index) index) := by
  refine ⟨?_, ?_, ?_⟩
  · unfold similarity_search
    rw [List.length_take, List.length_insertionSort]
  · unfold similarity_search
    exact List.Pairwise.sublist (List.take_sublist _ _)
      (List.sorted_insertionSort (simDesc sim) index)
  · intro h
    unfold similarity_search
    rw [List.take_of_length_le
      (by rw [List.length_insertionSort]; exact Nat.le_of_lt h)]
    exact List.perm_insertionSort _ _

/-- Concrete instance of C7: an index with two chunks returns both. -/
theorem C7_retriever_top5_witness :
    (([10, 20] : List Int).length < retrievalK)
  ∧ List.Perm (similarity_search (fun x => x) ([10, 20] : List Int)) [10, 20] :=
  ⟨by decide, (C7_retriever_top5 (fun x => x) [10, 20]).2.2 (by decide)⟩

/-! Initialization, from RealEstateChatbot.__init__ and
initialize_components in app.py. The body of initialize_components is one
try block: the steps run in order, each external call can raise, and the
single except handler shows one visible error message and returns False
without undoing any field assignment already made. -/

/-- The vector store handle: either opened from the persisted storage
location (carrying no information about the current chunk set) or freshly
built by embedding the given chunks. -/
inductive Index where
  | opened : Index
  | fresh : List (List Char) → Index
deriving DecidableEq

/-- The chat-model configuration, from ChatOpenAI in app.py. -/
structure ChatModel where
  model : String
  temperature : Nat
deriving DecidableEq

/-- The retrieval chain configuration, from RetrievalQA.from_chain_type in
app.py: the retriever it wraps and return_source_documents. -/
structure Chain where
  retrieverIndex : Index
  k : Nat
  returnSourceDocuments : Bool
deriving DecidableEq

/-- The four fields of RealEstateChatbot, all unset by __init__. -/
structure BotState where
  vectorstore : Option Index
  retriever : Option (Index × Nat)
  chat_model : Option ChatModel
  chain : Option Chain
deriving DecidableEq

/-- The state RealEstateChatbot.__init__ produces. -/
def emptyBot : BotState :=
  ⟨none, none, none, none⟩

/-- Outcomes of the external calls made during one run of
initialize_components: the credential test, the dataset-existence check,
the CSV load (the texts of the loaded Records), the storage-location
check, opening the persisted store, building a fresh store (the only step
that embeds chunks), constructing the chat model, and constructing the
chain. -/
structure InitEnv where
  apiKey : Except String Unit
  datasetExists : Bool
  csvLoad : Except String (List (List Char))
  dbExists : Bool
  openDb : Except String Unit
  buildDb : Except String Unit
  mkChatModel : Except String Unit
  mkChain : Except String Unit

/-- Result of one initialization run: the returned boolean, the bot state
afterwards, the number of chunk-embedding calls made, and the visible
error message if one was shown. -/
structure InitResult where
  success : Bool
  state : BotState
  embedCalls : Nat
  errorMsg : Option String

/-- The message prefixed to the description of a failure caught by the
except handler of initialize_components. -/
def init_error_text (e : String) : String :=
  "Error initializing chatbot: " ++ e

/-- From split_documents in initialize_components: every loaded Record
text is split by the Chunker and the chunks are concatenated in order. -/
def split_documents (documents : List (List Char)) : List (List Char) :=
  (documents.map splitGreedy).flatten

/-- Steps of initialize_components after the vector store is set: create
the retriever, the chat model and the chain, each assignment taking
effect before the next step can fail. -/
def finish_components (env : InitEnv) (st : BotState) (idx : Index)
    (embeds : Nat) : InitResult :=
  let st1 : BotState := { st with retriever := some (idx, retrievalK) }
  match env.mkChatModel with
  | Except.error e => ⟨false, st1, embeds, some (init_error_text e)⟩
  | Except.ok _ =>
    let st2 : BotState := { st1 with chat_model := some ⟨"gpt-4o", 0⟩ }
    match env.mkChain with
    | Except.error e => ⟨false, st2, embeds, some (init_error_text e)⟩
    | Except.ok _ =>
      ⟨true, { st2 with chain := some ⟨idx, retrievalK, true⟩ }, embeds, none⟩

/-- From initialize_components in app.py: test the credential, check the
dataset file, load the CSV, split the documents, open or build the vector
store (embedding one call per chunk only when building), then create the
retriever, chat model and chain. Any failure returns False, leaving every
field assignment already made in place. -/
def init_components (env : InitEnv) (st : BotState) : InitResult :=
  match env.apiKey with
  | Except.error e => ⟨false, st, 0, some ("Invalid API Key: " ++ e)⟩
  | Except.ok _ =>
    if env.datasetExists = false then
      ⟨false, st, 0, some "Property_data.csv file not found!"⟩
    else
      match env.csvLoad with
      | Except.error e => ⟨false, st, 0, some (init_error_text e)⟩
      | Except.ok documents =>
        let docs := split_documents documents
        if env.dbExists then
          match env.openDb with
          | Except.error e => ⟨false, st, 0, some (init_error_text e)⟩
          | Except.ok _ =>
            finish_components env { st with vectorstore := some Index.opened }
              Index.opened 0
        else
          match env.buildDb with
          | Except.error e => ⟨false, st, docs.length, some (init_error_text e)⟩
          | Except.ok _ =>
            finish_components env { st with vectorstore := some (Index.fresh docs) }
              (Index.fresh docs) docs.length

/-- Initialization run started on a freshly constructed chatbot, as main
in app.py does. -/
def init_run (env : InitEnv) : InitResult :=
  init_components env emptyBot

/-- C3: when the storage location chroma_db already exists, the Index
Builder opens and reuses the persisted index with zero chunk-embedding
calls, and the resulting vector store handle carries no relation to the
current chunk set (it is the bare opened handle, whatever the loaded
documents are); a fresh index, embedding every chunk, is built only when
the storage location is absent. -/
theorem C3_index_reuse (env : InitEnv) :
    (env.dbExists = true →
      (init_run env).embedCalls = 0
      ∧ ((init_run env).success = true →
          (init_run env).state.vectorstore = some Index.opened))
  ∧ (env.dbExists = false →
      ∀ documents, env.csvLoad = Except.ok documents →
        (init_run env).success = true →
        (init_run env).state.vectorstore
            = some (Index.fresh (split_documents documents))
        ∧ (init_run env).embedCalls = (split_documents documents).length) := by
  obtain ⟨ak, de, cl, db, od, bd, mc, mh⟩ := env
  cases ak <;> cases de <;> cases cl <;> cases db <;> cases od <;>
    cases bd <;> cases mc <;> cases mh <;>
      simp [init_run, init_components, finish_components]

/-- Concrete instance of C3: with an existing storage location and every
step succeeding, no chunk is embedded and the opened handle is reused. -/
theorem C3_index_reuse_witness :
    (init_run ⟨Except.ok (), true, Except.ok [['a']], true, Except.ok (),
        Except.ok (), Except.ok (), Except.ok ()⟩).embedCalls = 0
  ∧ (init_run ⟨Except.ok (), true, Except.ok [['a']], true, Except.ok (),
        Except.ok (), Except.ok (), Except.ok ()⟩).state.vectorstore
      = some Index.opened :=
  ⟨((C3_index_reuse _).1 rfl).1, ((C3_index_reuse ⟨Except.ok (), true,
      Except.ok [['a']], true, Except.ok (), Except.ok (), Except.ok (),
      Except.ok ()⟩).1 rfl).2 (by decide)⟩

/-- Environment in which every step succeeds except the final chain
construction. -/
def envChainBuildFail : InitEnv :=
  ⟨Except.ok (), true, Except.ok [['a']], true, Except.ok (), Except.ok (),
    Except.ok (), Except.error "boom"⟩

/-- C5 counterexample: when initialization fails at the last step (chain
construction), it reports failure, yet the vectorstore, retriever and
chat-model fields of the chatbot are no longer unset: the assignments
made before the failing step are retained, contradicting the claim that
all four fields are left exactly as before the attempt. -/
theorem C5_counterexample :
    (init_run envChainBuildFail).success = false
  ∧ (init_run envChainBuildFail).state.vectorstore ≠ none
  ∧ (init_run envChainBuildFail).state.retriever ≠ none
  ∧ (init_run envChainBuildFail).state.chat_model ≠ none := by
  decide

/-- C5 (amended): every failing initialization run reports failure with a
visible error message, and the chain field is left unset, so no usable
pipeline exists and the caller keeps the session uninitialized; however,
fields assigned before the failing step (vectorstore, retriever, chat
model) may be retained rather than reset. -/
theorem C5_failure_reported_chain_unset (env : InitEnv)
    (h : (init_run env).success = false) :
    (init_run env).errorMsg ≠ none ∧ (init_run env).state.chain = none := by
  obtain ⟨ak, de, cl, db, od, bd, mc, mh⟩ := env
  cases ak <;> cases de <;> cases cl <;> cases db <;> cases od <;>
    cases bd <;> cases mc <;> cases mh <;>
      simp_all [init_run, init_components, finish_components, emptyBot]

/-- Concrete instance of the amended C5: an invalid credential fails
initialization with a message and no chain. -/
theorem C5_failure_reported_chain_unset_witness :
    (init_run ⟨Except.error "bad key", true, Except.ok [], false,
        Except.ok (), Except.ok (), Except.ok (), Except.ok ()⟩).errorMsg ≠ none
  ∧ (init_run ⟨Except.error "bad key", true, Except.ok [], false,
        Except.ok (), Except.ok (), Except.ok (), Except.ok ()⟩).state.chain
      = none :=
  C5_failure_reported_chain_unset _ (by decide)

/-! Session and chat loop, from main in app.py. One rerun of main reads
the sidebar credential field, attempts initialization when a credential
is present and the session is not yet initialized, and either stops with
a warning (no credential), stops with a setup error (not initialized), or
runs the chat interface. -/

/-- One entry of the chat history: role (user or assistant) and text. -/
structure Message where
  role : String
  content : String
deriving DecidableEq

/-- The fixed assistant greeting used for a fresh history and by the
clear-history control in app.py. -/
def greeting : String :=
  "Hello! I\x27m your Real Estate Assistant. How can I help you today?"

/-- From the clear-chat button handler in app.py: the history is replaced
by the single fixed assistant greeting, whatever it held before. -/
def clear_chat_history (_msgs : List Message) : List Message :=
  [⟨"assistant", greeting⟩]

/-- From the chat-turn handler in app.py: append the user query to the
history, obtain the response pair, then append the assistant response. -/
def process_turn (env : QueryEnv) (msgs : List Message) (q : String) :
    List Message :=
  let msgs1 := msgs ++ [⟨"user", q⟩]
  msgs1 ++ [⟨"assistant", (get_response env).1⟩]

/-- Inputs the presentation shell delivers to one rerun of main: whether
a credential is in the sidebar field, the submitted chat query if any,
and whether the clear-history button was clicked. -/
structure TurnInput where
  apiKeyProvided : Bool
  userQuery : Option String
  clearClicked : Bool

/-- Ambient session state kept by the presentation shell across reruns. -/
structure Session where
  bot : BotState
  isInit : Bool
  messages : Option (List Message)

/-- How one rerun of main ends. -/
inductive Outcome where
  | noApiKey : Outcome
  | setupError : Outcome
  | chatTurn : Outcome
  | chatCleared : Outcome
  | chatIdle : Outcome
deriving DecidableEq

/-- One rerun of main in app.py: attempt initialization when a credential
is present and the session is not initialized; stop with a warning when
no credential is present; stop with the setup error when the session is
not initialized; otherwise run the chat interface (create the history if
absent, process a submitted query and append two messages, or clear the
history on request). -/
def rerun (envI : InitEnv) (qenv : String → QueryEnv) (inp : TurnInput)
    (s : Session) : Session × Outcome :=
  let s1 : Session :=
    if inp.apiKeyProvided && !s.isInit then
      let r := init_components envI s.bot
      { s with bot := r.state, isInit := r.success }
    else s
  if !inp.apiKeyProvided then (s1, Outcome.noApiKey)
  else if !s1.isInit then (s1, Outcome.setupError)
  else
    let msgs0 := s1.messages.getD [⟨"assistant", greeting⟩]
    let s2 : Session := { s1 with messages := some msgs0 }
    match inp.userQuery with
    | some q =>
      ({ s2 with messages := some (process_turn (qenv q) msgs0 q) },
        Outcome.chatTurn)
    | none =>
      if inp.clearClicked then
        ({ s2 with messages := some (clear_chat_history msgs0) },
          Outcome.chatCleared)
      else (s2, Outcome.chatIdle)

/-- A whole session: the outcome trace of a sequence of reruns. -/
def run_session (envI : InitEnv) (qenv : String → QueryEnv) :
    List TurnInput → Session → Session × List Outcome
  | [], s => (s, [])
  | inp :: rest, s =>
    let r1 := rerun envI qenv inp s
    let r2 := run_session envI qenv rest r1.1
    (r2.1, r1.2 :: r2.2)

theorem init_components_no_dataset (env : InitEnv) (st : BotState)
    (h : env.datasetExists = false) :
    (init_components env st).success = false := by
  cases hak : env.apiKey <;> simp [init_components, hak, h]

theorem rerun_no_dataset (envI : InitEnv) (qenv : String → QueryEnv)
    (inp : TurnInput) (s : Session) (hd : envI.datasetExists = false)
    (h0 : s.isInit = false) :
    (rerun envI qenv inp s).1.isInit = false
  ∧ (rerun envI qenv inp s).1.messages = s.messages
  ∧ ((rerun envI qenv inp s).2 = Outcome.noApiKey ∨
     (rerun envI qenv inp s).2 = Outcome.setupError)
  ∧ (inp.apiKeyProvided = true →
      (rerun envI qenv inp s).2 = Outcome.setupError) := by
  cases hap : inp.apiKeyProvided with
  | false => simp [rerun, hap, h0]
  | true =>
    simp [rerun, hap, h0, init_components_no_dataset envI s.bot hd]

/-- C6: when the dataset file is missing, every initialization attempt
returns failure, the session never becomes initialized, the chat history
is never touched, and every rerun ends either at the missing-credential
warning or at the setup error: no chat turn is ever accepted. -/
theorem C6_missing_dataset_blocks_chat (envI : InitEnv)
    (qenv : String → QueryEnv) (inps : List TurnInput) (s : Session)
    (hd : envI.datasetExists = false) (h0 : s.isInit = false) :
    (init_components envI s.bot).success = false
  ∧ (run_session envI qenv inps s).1.isInit = false
  ∧ (run_session envI qenv inps s).1.messages = s.messages
  ∧ ∀ o ∈ (run_session envI qenv inps s).2,
      o = Outcome.noApiKey ∨ o = Outcome.setupError := by
  refine ⟨init_components_no_dataset envI s.bot hd, ?_⟩
  induction inps generalizing s with
  | nil =>
    refine ⟨h0, rfl, ?_⟩
    intro o ho
    simp [run_session] at ho
  | cons inp rest ih =>
    have hr := rerun_no_dataset envI qenv inp s hd h0
    have hrec := ih (rerun envI qenv inp s).1 hr.1
    have hfst : (run_session envI qenv (inp :: rest) s).1
        = (run_session envI qenv rest (rerun envI qenv inp s).1).1 := rfl
    have hsnd : (run_session envI qenv (inp :: rest) s).2
        = (rerun envI qenv inp s).2
          :: (run_session envI qenv rest (rerun envI qenv inp s).1).2 := rfl
    refine ⟨?_, ?_, ?_⟩
    · rw [hfst]
      exact hrec.1
    · rw [hfst, hrec.2.1, hr.2.1]
    · intro o ho
      rw [hsnd] at ho
      rcases List.mem_cons.mp ho with rfl | ho
      · exact hr.2.2.1
      · exact hrec.2.2 o ho

/-- Initialization environment with the dataset file missing and every
other step succeeding. -/
def envNoDataset : InitEnv :=
  ⟨Except.ok (), false, Except.ok [], false, Except.ok (), Except.ok (),
    Except.ok (), Except.ok ()⟩

/-- A fixed per-query environment for session runs. -/
def qenvFixed : String → QueryEnv :=
  fun _ => ⟨Except.error "down", Except.error "down", Except.error "down"⟩

/-- The session state the presentation shell starts with. -/
def sessionStart : Session :=
  ⟨emptyBot, false, none⟩

/-- Concrete instance of C6: two reruns with a credential present, one
submitting a query, both end at the setup error and the session stays
uninitialized. -/
theorem C6_missing_dataset_blocks_chat_witness :
    (run_session envNoDataset qenvFixed
        [⟨true, some "hi", false⟩, ⟨true, none, true⟩] sessionStart).1.isInit
      = false
  ∧ (run_session envNoDataset qenvFixed
        [⟨true, some "hi", false⟩, ⟨true, none, true⟩] sessionStart).2
      = [Outcome.setupError, Outcome.setupError] :=
  ⟨(C6_missing_dataset_blocks_chat envNoDataset qenvFixed
      [⟨true, some "hi", false⟩, ⟨true, none, true⟩] sessionStart rfl rfl).2.1,
    by decide⟩

/-- C9: activating the clear-history control replaces the chat history
with exactly one assistant message holding the fixed greeting, whatever
the history held before. -/
theorem C9_clear_history_single_greeting (msgs : List Message) :
    clear_chat_history msgs = [⟨"assistant", greeting⟩]
  ∧ (clear_chat_history msgs).length = 1 :=
  ⟨rfl, rfl⟩

/-- C10: one processed chat turn appends exactly two messages to the
history, the user query with role user followed by the generated response
with role assistant, and leaves every previously stored message
unchanged. -/
theorem C10_turn_appends_user_then_assistant (env : QueryEnv)
    (msgs : List Message) (q : String) :
    process_turn env msgs q
      = msgs ++ [⟨"user", q⟩, ⟨"assistant", (get_response env).1⟩]
  ∧ (process_turn env msgs q).length = msgs.length + 2
  ∧ (process_turn env msgs q).take msgs.length = msgs := by
  refine ⟨?_, ?_, ?_⟩
  · unfold process_turn
    simp
  · unfold process_turn
    simp
  · unfold process_turn
    rw [List.append_assoc]
    exact List.take_left msgs _

end PropertyPal
